import Mathlib

/-!
Verification of the HSM connection manager (`internal/backend/hsm`,
`Connection` in connection.go) against its natural-language specification.

The Go code is shallowly embedded as follows.

* `Connection` mirrors the Go struct's shared fields: the atomic state cell,
  `host`/`port`, `poolCap`, the `broker` and `pool` handles (modelled as
  `Option Nat`, where the `Nat` is the object's identity — Go pointer
  identity — and `none` is Go's `nil`), `lastError` (`Option String`, `none`
  is a `nil` error), and the atomic `reconnecting` flag.
* Go errors are their message strings; `fmt.Errorf("...: %w", err)` renders
  as string concatenation, which is exactly what `.Error()` produces.
* Side effects that leave the struct (subscriber callbacks launched by
  `notifyStateChange`, the legacy `stateChanged` callback run by `setState`,
  `time.Sleep`, `Close`/`Stop` calls on broker and pool, `broker.SendContext`)
  are recorded in an event trace `List Event`, in program order.
* Each mutex-protected critical section of the Go code becomes one atomic
  Lean function on `Connection`; the interleaving of critical sections from
  different goroutines is modelled by the transition system `Step` further
  below.  External outcomes (what `createBroker` and `broker.Start()`
  return) are oracle parameters.
-/

/-- Model of `ConnectionState` from connection.go: `Disconnected | Connected |
Reconnecting` (iota order). -/
inductive ConnectionState where
  | Disconnected
  | Connected
  | Reconnecting
deriving DecidableEq, Repr

/-- Shared mutable fields of the Go `Connection` struct.  `broker`/`pool`
hold the identity of the live anet broker/pool object, or `none` for Go
`nil`. -/
structure Connection where
  state : ConnectionState
  host : String
  port : String
  poolCap : Nat
  broker : Option Nat
  pool : Option Nat
  lastError : Option String
  reconnecting : Bool
deriving DecidableEq, Repr

/-- Observable side effects, in program order.  `notify s e` is one round of
`notifyStateChange` handing `(s, e)` to every registered subscriber;
`stateCb s` is the legacy single `stateChanged` callback run by `setState`;
`sleep d` is `time.Sleep` of `d` nanoseconds; `attemptCreate i` marks the
`createBroker` call of reconnection iteration `i` (0-based);
`send b` is `broker.SendContext` on the broker with identity `b`. -/
inductive Event where
  | notify (s : ConnectionState) (err : Option String)
  | stateCb (s : ConnectionState)
  | sleep (d : Nat)
  | attemptCreate (i : Nat)
  | closeBroker (id : Nat)
  | closePool (id : Nat)
  | stopBroker (id : Nat)
  | stopPool (id : Nat)
  | send (id : Nat)
deriving DecidableEq, Repr

/-- Result of a `broker.Start()` call as seen by the run-loop goroutine:
`ok` is a `nil` error, `quit` is `anet.ErrQuit` (deliberate shutdown), and
`fail msg` is any other error. -/
inductive StartResult where
  | ok
  | quit
  | fail (msg : String)
deriving DecidableEq, Repr

/-- Model of `NewConnection`: zero-valued state cell (`Disconnected`), no handles, no
recorded error, reconnection flag clear.  `poolCap` is the zero value `0`
until the first `Connect`. -/
def NewConnection : Connection :=
  { state := .Disconnected
    host := ""
    port := ""
    poolCap := 0
    broker := none
    pool := none
    lastError := none
    reconnecting := false }

/-- Model of `GetState`: lock-free atomic read of the state cell. -/
def GetState (c : Connection) : ConnectionState := c.state

/-- Model of `GetLastError` (under RLock). -/
def GetLastError (c : Connection) : Option String := c.lastError

/-- Model of `GetPoolCapacity` (under RLock). -/
def GetPoolCapacity (c : Connection) : Nat := c.poolCap

/-- Model of `notifyStateChange`: reads the state cell and `lastError` and launches
every registered subscriber callback with that pair (one `notify` event). -/
def notifyEvent (c : Connection) : Event := .notify c.state c.lastError

/-- Model of `setState`: stores the state cell, runs the `stateChanged` callback,
then `notifyStateChange`. -/
def setState (c : Connection) (s : ConnectionState) : Connection × List Event :=
  let c2 := { c with state := s }
  (c2, [.stateCb s, notifyEvent c2])

/-- Body of `Connect` after `c.mu.Lock()` (connection.go, the section from
`c.reconnecting.Store(false)` to `return nil`).  The Go code performs no
state re-check here.  `createRes` is the oracle for `createBroker`:
`.ok (b, p)` are the identities of the freshly constructed broker and pool
(`createBroker` in this version performs no dial — the pool dials lazily —
and fails only if `anet.NewBroker` returns `nil`).  Returns the new shared
state, the error returned to the caller, and the emitted events.  The
run-loop goroutine spawned on success is modelled separately
(`runLoopLocked1`/`runLoopLocked2` and the `Step` system). -/
def connectLocked (c : Connection) (host port : String) (numConns : Nat)
    (createRes : Except String (Nat × Nat)) :
    Connection × Option String × List Event :=
  let c := { c with reconnecting := false }
  let closeEvs : List Event :=
    (match c.broker with | some b => [.closeBroker b] | none => []) ++
    (match c.pool with | some p => [.closePool p] | none => [])
  let c := { c with broker := none, pool := none }
  let n := if numConns < 1 then 1 else numConns
  let c := { c with poolCap := n, host := host, port := port }
  match createRes with
  | .error e => ({ c with lastError := some e }, some e, closeEvs)
  | .ok (b, p) =>
      let c := { c with broker := some b, pool := some p }
      -- `go func() { ... }()` — run-loop goroutine spawned here.
      let sleepEv : Event := .sleep 100000000
      let st := setState c .Connected
      ({ st.1 with lastError := none }, none, closeEvs ++ sleepEv :: st.2)

/-- Model of `Connect`: the lock-free fast check (`already connected` if the state
cell reads `Connected`), then the locked section. -/
def Connect (c : Connection) (host port : String) (numConns : Nat)
    (createRes : Except String (Nat × Nat)) :
    Connection × Option String × List Event :=
  if c.state = .Connected then (c, some "already connected", [])
  else connectLocked c host port numConns createRes

/-- Model of `Disconnect` (the whole body runs under `c.mu.Lock()`): `already
disconnected` if the state cell reads `Disconnected`; otherwise
`setState(Disconnected)` first, then `pool.Close()`, then `broker.Close()`,
then both handles are cleared. -/
def Disconnect (c : Connection) : Connection × Option String × List Event :=
  if c.state = .Disconnected then (c, some "already disconnected", [])
  else
    let st := setState c .Disconnected
    let closeEvs : List Event :=
      (match st.1.pool with | some p => [.closePool p] | none => []) ++
      (match st.1.broker with | some b => [.closeBroker b] | none => [])
    ({ st.1 with broker := none, pool := none }, none, st.2 ++ closeEvs)

/-- Model of `ExecuteCommand` (under RLock): `broker is not initialized` when the
broker handle is `nil`, otherwise one `SendContext` round-trip whose outcome
is the oracle `sendRes`. -/
def ExecuteCommand (c : Connection) (command : List Nat) (timeout : Nat)
    (sendRes : Except String (List Nat)) :
    Option (List Nat) × Option String × List Event :=
  match c.broker with
  | none => (none, some "broker is not initialized", [])
  | some b =>
      match sendRes with
      | .error e => (none, some e, [.send b])
      | .ok resp => (some resp, none, [.send b])

/-- First critical section of the run-loop goroutine (connection.go, the
`c.mu.Lock()` block after `brokerToRun.Start()` returns): on a non-quit
error it records `lastError` and — only when this is still the active
broker and the `reconnecting` flag is clear — launches
`go c.handleReconnection()`; when still active and the exit was clean or a
deliberate quit it clears `lastError`.  Returns the new shared state and
whether the reconnection goroutine was launched. -/
def runLoopLocked1 (c : Connection) (brokerToRun : Nat) (res : StartResult) :
    Connection × Bool :=
  match res with
  | .fail e =>
      if c.broker = some brokerToRun then
        ({ c with lastError := some ("broker stopped unexpectedly: " ++ e) },
         !c.reconnecting)
      else (c, false)
  | _ =>
      if c.broker = some brokerToRun then ({ c with lastError := none }, false)
      else (c, false)

/-- Second critical section of the run-loop goroutine (the `c.mu.RLock()`
block): `setState(Disconnected)` only if this is still the active broker. -/
def runLoopLocked2 (c : Connection) (brokerToRun : Nat) :
    Connection × List Event :=
  if c.broker = some brokerToRun then setState c .Disconnected
  else (c, [])

/-- Outcome of one reconnection iteration, as seen by `handleReconnection`:
`createBroker` fails, or it succeeds (yielding the fresh broker/pool
identities `b`, `p`) and the synchronous `broker.Start()` probe fails, or
both succeed. -/
inductive AttemptOutcome where
  | createFail (msg : String)
  | startFail (b p : Nat) (msg : String)
  | success (b p : Nat)
deriving DecidableEq, Repr

/-- Whether an iteration outcome reconnects. -/
def AttemptOutcome.isSuccess : AttemptOutcome → Bool
  | .success _ _ => true
  | _ => false

/-- Rendering of `fmt.Errorf("reconnection attempt %d failed: %w", attempt, err)` with
the Go-side 1-based attempt counter. -/
def createFailMsg (attempt : Nat) (e : String) : String :=
  "reconnection attempt " ++ toString (attempt + 1) ++ " failed: " ++ e

/-- Rendering of `fmt.Errorf("broker start failed on attempt %d: %w", attempt, err)`
with the Go-side 1-based attempt counter. -/
def startFailMsg (attempt : Nat) (e : String) : String :=
  "broker start failed on attempt " ++ toString (attempt + 1) ++ ": " ++ e

/-- The backoff computed in `handleReconnection`, in nanoseconds:
`time.Duration(math.Min(float64(time.Second)*math.Pow(2, attempt),
float64(30*time.Second)))`.  For the attempt indices that can occur
(`attempt < 5`) every float64 intermediate is an exactly representable
integer below 2^53, so the `Nat` expression is exact. -/
def backoffDur (attempt : Nat) : Nat :=
  min (1000000000 * 2 ^ attempt) 30000000000

/-- Teardown critical section of a reconnection iteration (the
`c.mu.Lock()` block before `createBroker`): best-effort `Stop` on the
current broker and pool, then both handles are cleared.  The state cell is
not touched. -/
def reconTeardown (c : Connection) : Connection × List Event :=
  let evs : List Event :=
    (match c.broker with | some b => [.stopBroker b] | none => []) ++
    (match c.pool with | some p => [.stopPool p] | none => [])
  ({ c with broker := none, pool := none }, evs)

/-- Success critical section of a reconnection iteration: install the new
pool and broker, store `Connected`, clear `lastError`, then
`notifyStateChange` (which therefore reports a `nil` error). -/
def reconInstall (c : Connection) (b p : Nat) : Connection × List Event :=
  let c := { c with pool := some p, broker := some b,
                    state := .Connected, lastError := none }
  (c, [notifyEvent c])

/-- Post-loop block of `handleReconnection` (all attempts exhausted): store
`Disconnected`, default `lastError` to the generic message if no attempt
recorded one, then `notifyStateChange`. -/
def reconExhaust (c : Connection) : Connection × List Event :=
  let c := { c with state := .Disconnected }
  let c :=
    if c.lastError = none then
      { c with lastError := some "failed to reconnect after 5 attempts" }
    else c
  (c, [notifyEvent c])

/-- The `for attempt < maxAttempts` loop of `handleReconnection`, with
`fuel` the number of iterations still permitted (`maxAttempts - attempt`,
so the top-level call has `attempt = 0`, `fuel = 5`).  Iteration `attempt`:
sleep `backoffDur attempt`, increment the Go-side counter (so messages
mention `attempt + 1`), tear down the stale pair, call `createBroker`
(oracle `outs attempt`); on failure record `lastError` and continue, on a
`Start` failure stop the fresh pair, record `lastError` and continue, on
success install the pair and return.  Falling out of the loop runs
`reconExhaust`. -/
def reconLoop (outs : Nat → AttemptOutcome) :
    Nat → Nat → Connection → Connection × List Event
  | _, 0, c => reconExhaust c
  | attempt, fuel + 1, c =>
      let sleepEv : Event := .sleep (backoffDur attempt)
      let td := reconTeardown c
      let atEv : Event := .attemptCreate attempt
      match outs attempt with
      | .createFail e =>
          let c2 := { td.1 with lastError := some (createFailMsg attempt e) }
          let r := reconLoop outs (attempt + 1) fuel c2
          (r.1, sleepEv :: td.2 ++ atEv :: r.2)
      | .startFail b p e =>
          let c2 := { td.1 with lastError := some (startFailMsg attempt e) }
          let r := reconLoop outs (attempt + 1) fuel c2
          (r.1, sleepEv :: td.2 ++ atEv :: .stopBroker b :: .stopPool p :: r.2)
      | .success b p =>
          let r := reconInstall td.1 b p
          (r.1, sleepEv :: td.2 ++ atEv :: r.2)

/-- Model of `handleReconnection`: the `CompareAndSwap(false, true)` entry guard (a
trigger that loses the race returns at once, with no effect and no
events), the entry block storing `Reconnecting` and notifying, the attempt
loop with `maxAttempts = 5`, and the deferred `reconnecting.Store(false)`
that runs on either exit path. -/
def handleReconnection (c : Connection) (outs : Nat → AttemptOutcome) :
    Connection × List Event :=
  if c.reconnecting then (c, [])
  else
    let c := { c with reconnecting := true }
    let c := { c with state := .Reconnecting }
    let entryEv : Event := notifyEvent c
    let r := reconLoop outs 0 5 c
    ({ r.1 with reconnecting := false }, entryEv :: r.2)

/-- The atomic `CompareAndSwap(false, true)` on the `reconnecting` flag:
returns the new flag value and whether the swap succeeded. -/
def compareAndSwapFF (flag : Bool) : Bool × Bool :=
  if flag = false then (true, true) else (flag, false)

/-!
Interleaving model.  Goroutine-shared memory is the `Connection`; each
mutex-protected critical section (and each lock-free atomic access) of the
Go code is one atomic transition.  Program counters track the background
goroutines between critical sections:

* `RunPC` — a run-loop goroutine spawned by `Connect`, carrying
  `brokerToRun` (its unlocked read of `c.broker` is taken at spawn time,
  which is one of the schedules the Go code admits);
* `ReconPC` — the (at most one modelled) `handleReconnection` goroutine.

`pendingRecon` counts `go c.handleReconnection()` launches whose entry
compare-and-swap has not executed yet.  `pending` holds `Connect` callers
that have passed the lock-free fast check but not yet entered the locked
section; `rets` logs the errors returned by completed `Connect` calls.
Fresh anet objects receive identities from the `nextId` counter — distinct
live objects are never identical, matching Go pointer identity.  The model
under-approximates the Go program (a schedule expressible here is a real
schedule), which is the direction needed to exhibit reachable states.
-/

/-- Program counter of one run-loop goroutine. -/
inductive RunPC where
  | started (b : Nat)
  | returned (b : Nat) (res : StartResult)
  | sec1done (b : Nat)
  | exited
deriving DecidableEq, Repr

/-- Program counter of the reconnection goroutine. -/
inductive ReconPC where
  | idle
  | entered
  | loopTop (attempt : Nat)
  | slept (attempt : Nat)
  | tornDown (attempt : Nat)
  | created (attempt : Nat) (b p : Nat)
  | exhausting
deriving DecidableEq, Repr

/-- Global state of the interleaving model. -/
structure Sys where
  conn : Connection
  pending : List (String × String × Nat)
  rets : List (Option String)
  runs : List RunPC
  reconPC : ReconPC
  pendingRecon : Nat
  nextId : Nat
deriving DecidableEq, Repr

/-- Initial system: a freshly constructed `Connection`, no background
goroutines. -/
def initSys : Sys :=
  { conn := NewConnection
    pending := []
    rets := []
    runs := []
    reconPC := .idle
    pendingRecon := 0
    nextId := 0 }

/-- Effect of the locked section of `Connect` when `createBroker` succeeds:
the caller leaves `pending`, the fresh identities come from `nextId`, and
the run-loop goroutine for the new broker is spawned. -/
def applyConnectCommit (s : Sys) (i : Nat) (host port : String) (n : Nat) : Sys :=
  let r := connectLocked s.conn host port n (.ok (s.nextId, s.nextId + 1))
  { s with conn := r.1
           rets := s.rets ++ [r.2.1]
           pending := s.pending.eraseIdx i
           runs := s.runs ++ [.started s.nextId]
           nextId := s.nextId + 2 }

/-- Effect of the locked section of `Connect` when `createBroker` fails
(`anet.NewBroker` returned `nil`): no goroutine is spawned. -/
def applyConnectCommitFail (s : Sys) (i : Nat) (host port : String) (n : Nat)
    (e : String) : Sys :=
  let r := connectLocked s.conn host port n (.error e)
  { s with conn := r.1
           rets := s.rets ++ [r.2.1]
           pending := s.pending.eraseIdx i }

/-- Effect of `go c.handleReconnection()` reaching its compare-and-swap:
when the flag is clear and no loop is modelled as active, the trigger wins
and proceeds to the entry block; otherwise it is a no-op. -/
def applyReconTrigger (s : Sys) : Sys :=
  let s := { s with pendingRecon := s.pendingRecon - 1 }
  if s.conn.reconnecting = false ∧ s.reconPC = .idle then
    { s with conn := { s.conn with reconnecting := true }, reconPC := .entered }
  else s

/-- One interleaved transition.  Each constructor is one critical section
(or lock-free atomic access) of connection.go, guarded by the issuing
goroutine's program counter. -/
inductive Step : Sys → Sys → Prop where
  | connectFast (s : Sys) (host port : String) (n : Nat)
      (h : s.conn.state ≠ .Connected) :
      Step s { s with pending := s.pending ++ [(host, port, n)] }
  | connectFastAlready (s : Sys)
      (h : s.conn.state = .Connected) :
      Step s { s with rets := s.rets ++ [some "already connected"] }
  | connectCommit (s : Sys) (i : Nat) (host port : String) (n : Nat)
      (h : s.pending.get? i = some (host, port, n)) :
      Step s (applyConnectCommit s i host port n)
  | connectCommitFail (s : Sys) (i : Nat) (host port : String) (n : Nat)
      (e : String) (h : s.pending.get? i = some (host, port, n)) :
      Step s (applyConnectCommitFail s i host port n e)
  | disconnectOp (s : Sys) :
      Step s { s with conn := (Disconnect s.conn).1 }
  | runReturn (s : Sys) (i : Nat) (b : Nat) (res : StartResult)
      (h : s.runs.get? i = some (.started b)) :
      Step s { s with runs := s.runs.set i (.returned b res) }
  | runSec1 (s : Sys) (i : Nat) (b : Nat) (res : StartResult)
      (h : s.runs.get? i = some (.returned b res)) :
      Step s { s with conn := (runLoopLocked1 s.conn b res).1
                      runs := s.runs.set i (.sec1done b)
                      pendingRecon := s.pendingRecon +
                        (if (runLoopLocked1 s.conn b res).2 then 1 else 0) }
  | runSec2 (s : Sys) (i : Nat) (b : Nat)
      (h : s.runs.get? i = some (.sec1done b)) :
      Step s { s with conn := (runLoopLocked2 s.conn b).1
                      runs := s.runs.set i .exited }
  | reconTrigger (s : Sys) (h : 0 < s.pendingRecon) :
      Step s (applyReconTrigger s)
  | reconEntry (s : Sys) (h : s.reconPC = .entered) :
      Step s { s with conn := { s.conn with state := .Reconnecting }
                      reconPC := .loopTop 0 }
  | reconLoopSleep (s : Sys) (a : Nat)
      (h : s.reconPC = .loopTop a) (ha : a < 5) :
      Step s { s with reconPC := .slept a }
  | reconLoopExit (s : Sys) (a : Nat)
      (h : s.reconPC = .loopTop a) (ha : ¬ a < 5) :
      Step s { s with reconPC := .exhausting }
  | reconTearStep (s : Sys) (a : Nat)
      (h : s.reconPC = .slept a) :
      Step s { s with conn := (reconTeardown s.conn).1
                      reconPC := .tornDown a }
  | reconCreateOk (s : Sys) (a : Nat)
      (h : s.reconPC = .tornDown a) :
      Step s { s with reconPC := .created a s.nextId (s.nextId + 1)
                      nextId := s.nextId + 2 }
  | reconCreateFail (s : Sys) (a : Nat) (e : String)
      (h : s.reconPC = .tornDown a) :
      Step s { s with conn := { s.conn with lastError := some (createFailMsg a e) }
                      reconPC := .loopTop (a + 1) }
  | reconStartOk (s : Sys) (a b p : Nat)
      (h : s.reconPC = .created a b p) :
      Step s { s with conn := { (reconInstall s.conn b p).1 with
                        reconnecting := false }
                      reconPC := .idle }
  | reconStartFail (s : Sys) (a b p : Nat) (e : String)
      (h : s.reconPC = .created a b p) :
      Step s { s with conn := { s.conn with lastError := some (startFailMsg a e) }
                      reconPC := .loopTop (a + 1) }
  | reconExhaustStep (s : Sys)
      (h : s.reconPC = .exhausting) :
      Step s { s with conn := { (reconExhaust s.conn).1 with
                        reconnecting := false }
                      reconPC := .idle }

/-- Reachability from the initial system. -/
def Reach (s : Sys) : Prop := Relation.ReflTransGen Step initSys s

/-!  Sample states used by the witnesses. -/

/-- A connected manager with a live broker/pool pair. -/
def sampleConnected : Connection :=
  { state := .Connected
    host := "10.0.0.1"
    port := "1500"
    poolCap := 2
    broker := some 5
    pool := some 6
    lastError := none
    reconnecting := false }

/-- A disconnected manager that recorded a failure earlier. -/
def sampleFailed : Connection :=
  { NewConnection with lastError := some "old failure" }

/-- A manager whose reconnection flag is already set. -/
def sampleReconnecting : Connection :=
  { sampleConnected with state := .Reconnecting, reconnecting := true }

/-- C2: a broker run-loop goroutine whose broker has been superseded (the
current `broker` field is no longer identical to its `brokerToRun`)
mutates nothing: in both of its critical sections the shared state is
returned unchanged, no reconnection is triggered, no notification fires —
whatever `Start()` returned and whatever the rest of the system did in
between.  Quantifying over every `Connection` value covers every
interleaving of the run-loop exit with `Connect`, `Disconnect` and the
reconnection loop. -/
theorem c2_stale_runloop_no_mutation (c : Connection) (b : Nat)
    (res : StartResult) (h : c.broker ≠ some b) :
    runLoopLocked1 c b res = (c, false) ∧ runLoopLocked2 c b = (c, []) := by
  refine ⟨?_, ?_⟩
  · cases res <;> simp [runLoopLocked1, h]
  · simp [runLoopLocked2, h]

/-- Witness for `c2_stale_runloop_no_mutation` at a concrete superseded
broker identity. -/
theorem c2_witness :
    runLoopLocked1 sampleConnected 7 (.fail "io timeout") =
      (sampleConnected, false) ∧
    runLoopLocked2 sampleConnected 7 = (sampleConnected, []) :=
  c2_stale_runloop_no_mutation sampleConnected 7 (.fail "io timeout") (by decide)

/-- C7: `Disconnect` on an already-disconnected manager returns the
"already disconnected" error and has no effect at all; otherwise it
returns `nil`, ends with state `Disconnected` and both handles `nil`, and
its event trace shows the state store (with its notification) strictly
before the close calls. -/
theorem c7_disconnect_semantics (c : Connection) :
    (c.state = .Disconnected →
      Disconnect c = (c, some "already disconnected", [])) ∧
    (c.state ≠ .Disconnected →
      (Disconnect c).1.state = .Disconnected ∧
      (Disconnect c).1.broker = none ∧
      (Disconnect c).1.pool = none ∧
      (Disconnect c).2.1 = none ∧
      (Disconnect c).2.2 =
        .stateCb .Disconnected :: .notify .Disconnected c.lastError ::
        ((match c.pool with | some p => [Event.closePool p] | none => []) ++
         (match c.broker with | some b => [Event.closeBroker b] | none => []))) := by
  constructor
  · intro h
    simp [Disconnect, h]
  · intro h
    simp [Disconnect, if_neg h, setState, notifyEvent]

/-- Witness for `c7_disconnect_semantics` on a live connection. -/
theorem c7_witness :
    (Disconnect sampleConnected).1.state = .Disconnected ∧
    (Disconnect sampleConnected).1.broker = none ∧
    (Disconnect sampleConnected).1.pool = none ∧
    (Disconnect sampleConnected).2.1 = none ∧
    (Disconnect sampleConnected).2.2 =
      .stateCb .Disconnected :: .notify .Disconnected sampleConnected.lastError ::
      ((match sampleConnected.pool with
        | some p => [Event.closePool p] | none => []) ++
       (match sampleConnected.broker with
        | some b => [Event.closeBroker b] | none => [])) :=
  (c7_disconnect_semantics sampleConnected).2 (by decide)

/-- C8: `ExecuteCommand` with no bound broker returns a `nil` response and
the "broker is not initialized" error at once — the empty event trace
records that no `SendContext` call (hence no network I/O, no blocking)
happens, whatever the send oracle would have answered. -/
theorem c8_execute_requires_broker (c : Connection) (cmd : List Nat)
    (t : Nat) (sendRes : Except String (List Nat)) (h : c.broker = none) :
    ExecuteCommand c cmd t sendRes = (none, some "broker is not initialized", []) := by
  simp [ExecuteCommand, h]

/-- Witness for `c8_execute_requires_broker` on a freshly constructed
(`Disconnected`) manager. -/
theorem c8_witness :
    ExecuteCommand NewConnection [48, 48] 1000000000 (.ok [57]) =
      (none, some "broker is not initialized", []) :=
  c8_execute_requires_broker NewConnection [48, 48] 1000000000 (.ok [57]) (by decide)

/-- C9: once the fast check passes and `createBroker` succeeds (which in
this code involves no dialing — the pool connects lazily, so construction
succeeds regardless of how bad `host:port` is), `Connect` returns a `nil`
error unconditionally.  A transport failure surfaces only later through
the background run-loop: when its broker is still the active one, the
first run-loop section records the wrapped error in `lastError` and the
second moves the state to `Disconnected`. -/
theorem c9_connect_returns_nil_locally (c d : Connection)
    (host port : String) (n b p b2 : Nat) (e : String)
    (hc : c.state ≠ .Connected) (hd : d.broker = some b2) :
    (Connect c host port n (.ok (b, p))).2.1 = none ∧
    (runLoopLocked1 d b2 (.fail e)).1.lastError =
      some ("broker stopped unexpectedly: " ++ e) ∧
    (runLoopLocked2 (runLoopLocked1 d b2 (.fail e)).1 b2).1.state =
      .Disconnected := by
  refine ⟨?_, ?_, ?_⟩
  · simp [Connect, hc, connectLocked]
  · simp [runLoopLocked1, hd]
  · simp [runLoopLocked1, runLoopLocked2, setState, hd]

/-- Witness for `c9_connect_returns_nil_locally`: an unresolvable host
still yields a `nil` error from `Connect`, and the later run-loop failure
lands in `lastError` and the state cell. -/
theorem c9_witness :
    (Connect NewConnection "invalid-host-that-does-not-exist" "1500" 1
        (.ok (0, 1))).2.1 = none ∧
    (runLoopLocked1 sampleConnected 5 (.fail "dial tcp: no such host")).1.lastError =
      some "broker stopped unexpectedly: dial tcp: no such host" ∧
    (runLoopLocked2
        (runLoopLocked1 sampleConnected 5 (.fail "dial tcp: no such host")).1
        5).1.state = .Disconnected :=
  c9_connect_returns_nil_locally NewConnection sampleConnected
    "invalid-host-that-does-not-exist" "1500" 1 0 1 5 "dial tcp: no such host"
    (by decide) (by decide)

/-- C10: on a successful `Connect` the `setState(Connected)` notification
fires before `lastError` is cleared, so the subscribers receive the
`lastError` recorded prior to this call (possibly non-nil), while
`GetLastError` on the post-call state is `nil`. -/
theorem c10_notify_before_clear (c : Connection) (host port : String)
    (n b p : Nat) (hc : c.state ≠ .Connected) :
    (Connect c host port n (.ok (b, p))).2.2 =
      ((match c.broker with | some i => [Event.closeBroker i] | none => []) ++
       (match c.pool with | some i => [Event.closePool i] | none => [])) ++
      [Event.sleep 100000000, Event.stateCb .Connected,
       Event.notify .Connected c.lastError] ∧
    GetLastError (Connect c host port n (.ok (b, p))).1 = none := by
  constructor
  · simp [Connect, hc, connectLocked, setState, notifyEvent]
  · simp [Connect, hc, connectLocked, setState, GetLastError]

/-- Witness for `c10_notify_before_clear`: a manager carrying an earlier
failure notifies the `Connected` transition with that old error, yet
`GetLastError` afterwards returns `nil`. -/
theorem c10_witness :
    (Connect sampleFailed "10.0.0.1" "1500" 2 (.ok (3, 4))).2.2 =
      ((match sampleFailed.broker with
        | some i => [Event.closeBroker i] | none => []) ++
       (match sampleFailed.pool with
        | some i => [Event.closePool i] | none => [])) ++
      [Event.sleep 100000000, Event.stateCb .Connected,
       Event.notify .Connected sampleFailed.lastError] ∧
    GetLastError (Connect sampleFailed "10.0.0.1" "1500" 2 (.ok (3, 4))).1 = none :=
  c10_notify_before_clear sampleFailed "10.0.0.1" "1500" 2 3 4 (by decide)

/-- C3 (amended): the `Connected` check of `Connect` happens exactly once,
without the lock: a call that observes `Connected` at entry returns the
"already connected" error with every field untouched, and a call whose
fast check passes runs the locked section unconditionally — there is no
second check after the lock is acquired. -/
theorem c3_fast_check_only (c : Connection) (host port : String) (n : Nat)
    (res : Except String (Nat × Nat)) :
    (c.state = .Connected →
      Connect c host port n res = (c, some "already connected", [])) ∧
    (c.state ≠ .Connected →
      Connect c host port n res = connectLocked c host port n res) := by
  constructor
  · intro h; simp [Connect, h]
  · intro h; simp [Connect, h]

/-- Witness for `c3_fast_check_only`: a `Connect` on an already connected
manager is rejected unchanged. -/
theorem c3_witness :
    Connect sampleConnected "10.9.9.9" "42" 7 (.ok (8, 9)) =
      (sampleConnected, some "already connected", []) :=
  (c3_fast_check_only sampleConnected "10.9.9.9" "42" 7 (.ok (8, 9))).1 (by decide)

/-- C6: the reconnection loop is serialized by the `reconnecting`
compare-and-swap.  (1) A trigger that finds the flag already `true`
returns at once with no state change and no events; (2) whatever the
attempt outcomes, a loop that does run leaves the flag `false` on exit
(the deferred store, on the success path and the exhaustion path alike);
(3) of two overlapping triggers racing the atomic compare-and-swap, at
most one succeeds. -/
theorem c6_reconnect_guard (c c2 : Connection)
    (outs outs2 : Nat → AttemptOutcome) (f : Bool)
    (h : c.reconnecting = true) (h2 : c2.reconnecting = false) :
    handleReconnection c outs = (c, []) ∧
    (handleReconnection c2 outs2).1.reconnecting = false ∧
    ¬((compareAndSwapFF f).2 = true ∧
      (compareAndSwapFF (compareAndSwapFF f).1).2 = true) := by
  refine ⟨?_, ?_, ?_⟩
  · simp [handleReconnection, h]
  · simp [handleReconnection, h2]
  · cases f <;> simp [compareAndSwapFF]

/-- Witness for `c6_reconnect_guard` with one flagged and one idle
manager and a concrete race on the flag. -/
theorem c6_witness :
    handleReconnection sampleReconnecting (fun _ => .createFail "refused") =
      (sampleReconnecting, []) ∧
    (handleReconnection NewConnection (fun _ => .createFail "refused")).1.reconnecting =
      false ∧
    ¬((compareAndSwapFF false).2 = true ∧
      (compareAndSwapFF (compareAndSwapFF false).1).2 = true) :=
  c6_reconnect_guard sampleReconnecting NewConnection
    (fun _ => .createFail "refused") (fun _ => .createFail "refused") false
    (by decide) (by decide)

/-- C1 (amended, per-operation discipline): `Disconnect` moves the state
to `Disconnected` in the same critical section in which it clears the
broker; the success paths of `Connect` and of the reconnection loop store
a non-`nil` broker together with `Connected` in one critical section; but
the reconnection-iteration teardown clears the broker to `nil` while
leaving the state cell untouched — it does not move the state out of
`Connected`, which is what allows the interleaving exhibited by
`c1_connected_nil_broker_reachable`. -/
theorem c1_amended_broker_state_discipline (c d : Connection)
    (host port : String) (n b p b2 p2 : Nat)
    (hd : d.state ≠ .Disconnected) :
    ((Disconnect d).1.state = .Disconnected ∧ (Disconnect d).1.broker = none) ∧
    ((connectLocked c host port n (.ok (b, p))).1.state = .Connected ∧
     (connectLocked c host port n (.ok (b, p))).1.broker = some b) ∧
    ((reconInstall c b2 p2).1.state = .Connected ∧
     (reconInstall c b2 p2).1.broker = some b2) ∧
    ((reconTeardown c).1.state = c.state ∧ (reconTeardown c).1.broker = none) := by
  refine ⟨⟨?_, ?_⟩, ⟨?_, ?_⟩, ⟨?_, ?_⟩, ?_, ?_⟩ <;>
    simp [Disconnect, hd, setState, connectLocked, reconInstall, reconTeardown]

/-- Witness for `c1_amended_broker_state_discipline` at concrete
arguments. -/
theorem c1_amended_witness :
    ((Disconnect sampleConnected).1.state = .Disconnected ∧
     (Disconnect sampleConnected).1.broker = none) ∧
    ((connectLocked sampleFailed "h" "p" 1 (.ok (0, 1))).1.state = .Connected ∧
     (connectLocked sampleFailed "h" "p" 1 (.ok (0, 1))).1.broker = some 0) ∧
    ((reconInstall sampleFailed 2 3).1.state = .Connected ∧
     (reconInstall sampleFailed 2 3).1.broker = some 2) ∧
    ((reconTeardown sampleFailed).1.state = sampleFailed.state ∧
     (reconTeardown sampleFailed).1.broker = none) :=
  c1_amended_broker_state_discipline sampleFailed sampleConnected
    "h" "p" 1 0 1 2 3 (by decide)

/-- The sleep/attempt skeleton of `k` reconnection iterations starting at
attempt index `attempt`: each iteration sleeps its backoff and then makes
its `createBroker` attempt. -/
def backoffBlocks : Nat → Nat → List Event
  | _, 0 => []
  | attempt, k + 1 =>
      .sleep (backoffDur attempt) :: .attemptCreate attempt ::
        backoffBlocks (attempt + 1) k

/-- Keep only the sleeps and the attempt markers of a trace. -/
def keepSleepAttempt : Event → Bool
  | .sleep _ => true
  | .attemptCreate _ => true
  | _ => false

/-- The sleep/attempt subtrace of a trace. -/
def sleepAttemptOf (evs : List Event) : List Event :=
  evs.filter keepSleepAttempt

theorem sleepAttemptOf_teardown (c : Connection) :
    sleepAttemptOf (reconTeardown c).2 = [] := by
  cases hb : c.broker <;> cases hp : c.pool <;>
    simp [reconTeardown, sleepAttemptOf, keepSleepAttempt, hb, hp]

/-- If every outcome in the remaining window fails, the loop falls through
to the exhaustion block: state `Disconnected`, a non-`nil` `lastError`,
and a final notification carrying exactly that error. -/
theorem reconLoop_all_fail (outs : Nat → AttemptOutcome) (fuel : Nat) :
    ∀ (attempt : Nat) (c : Connection),
      (∀ j, attempt ≤ j → j < attempt + fuel → (outs j).isSuccess = false) →
      (reconLoop outs attempt fuel c).1.state = .Disconnected ∧
      (reconLoop outs attempt fuel c).1.lastError ≠ none ∧
      ∃ pre, (reconLoop outs attempt fuel c).2 =
        pre ++ [.notify .Disconnected (reconLoop outs attempt fuel c).1.lastError] := by
  induction fuel with
  | zero =>
      intro attempt c _
      cases hle : c.lastError <;>
        simp [reconLoop, reconExhaust, notifyEvent, hle]
  | succ fuel ih =>
      intro attempt c h
      have hat : (outs attempt).isSuccess = false :=
        h attempt le_rfl (by omega)
      have hwin : ∀ j, attempt + 1 ≤ j → j < (attempt + 1) + fuel →
          (outs j).isSuccess = false := by
        intro j hj1 hj2
        exact h j (by omega) (by omega)
      cases ho : outs attempt with
      | success b p =>
          rw [ho] at hat
          simp [AttemptOutcome.isSuccess] at hat
      | createFail e =>
          obtain ⟨h1, h2, pre0, hpre⟩ := ih (attempt + 1) _ hwin
          refine ⟨?_, ?_, ?_⟩
          · simpa [reconLoop, ho] using h1
          · simpa [reconLoop, ho] using h2
          · refine ⟨.sleep (backoffDur attempt) ::
              (reconTeardown c).2 ++ .attemptCreate attempt :: pre0, ?_⟩
            simp only [reconLoop, ho]
            simp [hpre, List.append_assoc]
      | startFail b p e =>
          obtain ⟨h1, h2, pre0, hpre⟩ := ih (attempt + 1) _ hwin
          refine ⟨?_, ?_, ?_⟩
          · simpa [reconLoop, ho] using h1
          · simpa [reconLoop, ho] using h2
          · refine ⟨.sleep (backoffDur attempt) ::
              (reconTeardown c).2 ++ .attemptCreate attempt ::
              .stopBroker b :: .stopPool p :: pre0, ?_⟩
            simp only [reconLoop, ho]
            simp [hpre, List.append_assoc]

/-- On the first attempt in the window whose `Start()` succeeds, the loop
installs the fresh pair, reaches `Connected` with a `nil` `lastError`, and
its final event is the `(Connected, nil)` notification. -/
theorem reconLoop_first_success (outs : Nat → AttemptOutcome) (fuel : Nat) :
    ∀ (attempt : Nat) (c : Connection) (a b p : Nat),
      attempt ≤ a → a < attempt + fuel → outs a = .success b p →
      (∀ j, attempt ≤ j → j < a → (outs j).isSuccess = false) →
      (reconLoop outs attempt fuel c).1.state = .Connected ∧
      (reconLoop outs attempt fuel c).1.broker = some b ∧
      (reconLoop outs attempt fuel c).1.pool = some p ∧
      (reconLoop outs attempt fuel c).1.lastError = none ∧
      ∃ pre, (reconLoop outs attempt fuel c).2 =
        pre ++ [.notify .Connected none] := by
  induction fuel with
  | zero =>
      intro attempt c a b p h1 h2 _ _
      omega
  | succ fuel ih =>
      intro attempt c a b p h1 h2 h3 h4
      rcases Nat.eq_or_lt_of_le h1 with heq | hlt
      · subst heq
        refine ⟨?_, ?_, ?_, ?_,
          ⟨.sleep (backoffDur attempt) ::
            (reconTeardown c).2 ++ [.attemptCreate attempt], ?_⟩⟩ <;>
          simp [reconLoop, h3, reconInstall, notifyEvent, List.append_assoc]
      · have hat : (outs attempt).isSuccess = false :=
          h4 attempt le_rfl hlt
        have hwin : ∀ j, attempt + 1 ≤ j → j < a →
            (outs j).isSuccess = false := by
          intro j hj1 hj2
          exact h4 j (by omega) hj2
        cases ho : outs attempt with
        | success b2 p2 =>
            rw [ho] at hat
            simp [AttemptOutcome.isSuccess] at hat
        | createFail e =>
            obtain ⟨g1, g2, g3, g4, pre0, hpre⟩ :=
              ih (attempt + 1) ({ (reconTeardown c).1 with
                lastError := some (createFailMsg attempt e) }) a b p
                (by omega) (by omega) h3 hwin
            refine ⟨?_, ?_, ?_, ?_, ?_⟩
            · simpa [reconLoop, ho] using g1
            · simpa [reconLoop, ho] using g2
            · simpa [reconLoop, ho] using g3
            · simpa [reconLoop, ho] using g4
            · refine ⟨.sleep (backoffDur attempt) ::
                (reconTeardown c).2 ++ .attemptCreate attempt :: pre0, ?_⟩
              simp only [reconLoop, ho]
              simp [hpre, List.append_assoc]
        | startFail b2 p2 e =>
            obtain ⟨g1, g2, g3, g4, pre0, hpre⟩ :=
              ih (attempt + 1) ({ (reconTeardown c).1 with
                lastError := some (startFailMsg attempt e) }) a b p
                (by omega) (by omega) h3 hwin
            refine ⟨?_, ?_, ?_, ?_, ?_⟩
            · simpa [reconLoop, ho] using g1
            · simpa [reconLoop, ho] using g2
            · simpa [reconLoop, ho] using g3
            · simpa [reconLoop, ho] using g4
            · refine ⟨.sleep (backoffDur attempt) ::
                (reconTeardown c).2 ++ .attemptCreate attempt ::
                .stopBroker b2 :: .stopPool p2 :: pre0, ?_⟩
              simp only [reconLoop, ho]
              simp [hpre, List.append_assoc]

/-- The sleep/attempt subtrace of the loop is a prefix of the backoff
schedule: some number `k ≤ fuel` of iterations ran, each sleeping its
backoff immediately before its attempt. -/
theorem reconLoop_blocks (outs : Nat → AttemptOutcome) (fuel : Nat) :
    ∀ (attempt : Nat) (c : Connection),
      ∃ k, k ≤ fuel ∧
        sleepAttemptOf (reconLoop outs attempt fuel c).2 =
          backoffBlocks attempt k := by
  induction fuel with
  | zero =>
      intro attempt c
      refine ⟨0, le_rfl, ?_⟩
      cases hle : c.lastError <;>
        simp [reconLoop, reconExhaust, notifyEvent, hle, sleepAttemptOf,
          keepSleepAttempt, backoffBlocks]
  | succ fuel ih =>
      intro attempt c
      cases ho : outs attempt with
      | success b p =>
          refine ⟨1, by omega, ?_⟩
          have htd := sleepAttemptOf_teardown c
          simp only [reconLoop, ho]
          simp only [sleepAttemptOf, List.filter_cons, List.filter_append] at htd ⊢
          simp [htd, keepSleepAttempt, reconInstall, notifyEvent, backoffBlocks]
      | createFail e =>
          obtain ⟨k, hk, hblocks⟩ := ih (attempt + 1)
            ({ (reconTeardown c).1 with
              lastError := some (createFailMsg attempt e) })
          refine ⟨k + 1, by omega, ?_⟩
          have htd := sleepAttemptOf_teardown c
          simp only [reconLoop, ho]
          simp only [sleepAttemptOf, List.filter_cons, List.filter_append] at htd hblocks ⊢
          simp [htd, hblocks, keepSleepAttempt, backoffBlocks]
      | startFail b p e =>
          obtain ⟨k, hk, hblocks⟩ := ih (attempt + 1)
            ({ (reconTeardown c).1 with
              lastError := some (startFailMsg attempt e) })
          refine ⟨k + 1, by omega, ?_⟩
          have htd := sleepAttemptOf_teardown c
          simp only [reconLoop, ho]
          simp only [sleepAttemptOf, List.filter_cons, List.filter_append] at htd hblocks ⊢
          simp [htd, hblocks, keepSleepAttempt, backoffBlocks]

/-- Unfolding of a `handleReconnection` run whose entry compare-and-swap
succeeds. -/
theorem handleReconnection_run (c : Connection) (outs : Nat → AttemptOutcome)
    (h : c.reconnecting = false) :
    handleReconnection c outs =
      ({ (reconLoop outs 0 5
            { c with reconnecting := true, state := .Reconnecting }).1
          with reconnecting := false },
       .notify .Reconnecting c.lastError ::
         (reconLoop outs 0 5
           { c with reconnecting := true, state := .Reconnecting }).2) := by
  simp [handleReconnection, h, notifyEvent]

/-- C4: the reconnection loop ends in exactly one of two ways.  If the
first successful attempt is some `a < 5`, the loop installs that
attempt's broker and pool, ends `Connected` with `lastError = nil` and a
final `(Connected, nil)` notification.  If all 5 attempts fail, it ends
`Disconnected` with a non-`nil` `lastError` and a final notification
carrying that error; the exhaustion block is what guarantees non-`nil`,
defaulting to the generic message only when no attempt recorded an
error. -/
theorem c4_reconnection_termination (c : Connection)
    (outs : Nat → AttemptOutcome) (h : c.reconnecting = false) :
    (∀ a b p, a < 5 → outs a = .success b p →
      (∀ j, j < a → (outs j).isSuccess = false) →
      (handleReconnection c outs).1.state = .Connected ∧
      (handleReconnection c outs).1.broker = some b ∧
      (handleReconnection c outs).1.pool = some p ∧
      (handleReconnection c outs).1.lastError = none ∧
      (handleReconnection c outs).1.reconnecting = false ∧
      ∃ pre, (handleReconnection c outs).2 = pre ++ [.notify .Connected none]) ∧
    ((∀ a, a < 5 → (outs a).isSuccess = false) →
      (handleReconnection c outs).1.state = .Disconnected ∧
      (handleReconnection c outs).1.lastError ≠ none ∧
      (handleReconnection c outs).1.reconnecting = false ∧
      ∃ pre, (handleReconnection c outs).2 =
        pre ++ [.notify .Disconnected (handleReconnection c outs).1.lastError]) ∧
    (∀ d : Connection, (reconExhaust d).1.lastError =
      if d.lastError = none then some "failed to reconnect after 5 attempts"
      else d.lastError) := by
  have hif := handleReconnection_run c outs h
  refine ⟨?_, ?_, ?_⟩
  · intro a b p ha ho hwin
    obtain ⟨g1, g2, g3, g4, pre0, hpre⟩ :=
      reconLoop_first_success outs 5 0
        { c with reconnecting := true, state := .Reconnecting } a b p
        (Nat.zero_le a) (by omega) ho (fun j _ hj => hwin j hj)
    rw [hif]
    refine ⟨g1, g2, g3, g4, rfl, .notify .Reconnecting c.lastError :: pre0, ?_⟩
    rw [hpre]
    simp
  · intro hfail
    obtain ⟨g1, g2, pre0, hpre⟩ :=
      reconLoop_all_fail outs 5 0
        { c with reconnecting := true, state := .Reconnecting }
        (fun j _ hj => hfail j (by omega))
    rw [hif]
    refine ⟨g1, g2, rfl, .notify .Reconnecting c.lastError :: pre0, ?_⟩
    rw [hpre]
    simp
  · intro d
    cases hd : d.lastError <;> simp [reconExhaust, hd]

/-- The always-failing outcome oracle used by the reconnection
witnesses. -/
def outsAllFail : Nat → AttemptOutcome := fun _ => .createFail "connection refused"

/-- Witness for `c4_reconnection_termination` on the exhaustion branch. -/
theorem c4_witness :
    (handleReconnection NewConnection outsAllFail).1.state = .Disconnected ∧
    (handleReconnection NewConnection outsAllFail).1.lastError ≠ none ∧
    (handleReconnection NewConnection outsAllFail).1.reconnecting = false ∧
    ∃ pre, (handleReconnection NewConnection outsAllFail).2 =
      pre ++ [.notify .Disconnected
        (handleReconnection NewConnection outsAllFail).1.lastError] :=
  (c4_reconnection_termination NewConnection outsAllFail (by decide)).2.1
    (fun a _ => rfl)

/-- C5: every reconnection run makes at most 5 attempts; its sleep/attempt
subtrace pairs each attempt `a` with an immediately preceding sleep of
`backoffDur a`; and `backoffDur a = min(1s × 2^a, 30s)`, which for the
five possible attempt indices is 1s, 2s, 4s, 8s, 16s. -/
theorem c5_backoff_schedule (c : Connection)
    (outs : Nat → AttemptOutcome) (h : c.reconnecting = false) :
    (∃ k, k ≤ 5 ∧
      sleepAttemptOf (handleReconnection c outs).2 = backoffBlocks 0 k) ∧
    (∀ a, backoffDur a = min (1000000000 * 2 ^ a) 30000000000) ∧
    [backoffDur 0, backoffDur 1, backoffDur 2, backoffDur 3, backoffDur 4] =
      [1000000000, 2000000000, 4000000000, 8000000000, 16000000000] := by
  refine ⟨?_, fun a => rfl, by decide⟩
  obtain ⟨k, hk, hb⟩ :=
    reconLoop_blocks outs 5 0 { c with reconnecting := true, state := .Reconnecting }
  refine ⟨k, hk, ?_⟩
  rw [handleReconnection_run c outs h]
  simpa [sleepAttemptOf, keepSleepAttempt] using hb

/-- Witness for `c5_backoff_schedule` on a concrete always-failing run. -/
theorem c5_witness :
    (∃ k, k ≤ 5 ∧
      sleepAttemptOf (handleReconnection NewConnection outsAllFail).2 =
        backoffBlocks 0 k) ∧
    (∀ a, backoffDur a = min (1000000000 * 2 ^ a) 30000000000) ∧
    [backoffDur 0, backoffDur 1, backoffDur 2, backoffDur 3, backoffDur 4] =
      [1000000000, 2000000000, 4000000000, 8000000000, 16000000000] :=
  c5_backoff_schedule NewConnection outsAllFail (by decide)

/-!  Concrete schedules used by the counterexamples.  Each `c..s..`
definition is the system state after one more atomic step of the schedule
described in its comment. -/

/-- Caller A passes the fast check of `Connect("h2","p2",1)`. -/
def c3s1 : Sys := { initSys with pending := [("h2", "p2", 1)] }

/-- Caller B passes the fast check of `Connect("h1","p1",1)`. -/
def c3s2 : Sys := { c3s1 with pending := [("h2", "p2", 1), ("h1", "p1", 1)] }

/-- Caller B runs the locked section to completion: the manager is now
`Connected` to `h1:p1`, with caller A still waiting on the lock. -/
def c3Mid : Sys :=
  { conn := { state := .Connected, host := "h1", port := "p1", poolCap := 1,
              broker := some 0, pool := some 1, lastError := none,
              reconnecting := false }
    pending := [("h2", "p2", 1)]
    rets := [none]
    runs := [.started 0]
    reconPC := .idle
    pendingRecon := 0
    nextId := 2 }

/-- Caller A now runs the locked section — from a state whose state cell
already reads `Connected` — and still commits, retargeting the manager to
`h2:p2` and returning a `nil` error. -/
def c3Bad : Sys :=
  { conn := { state := .Connected, host := "h2", port := "p2", poolCap := 1,
              broker := some 2, pool := some 3, lastError := none,
              reconnecting := false }
    pending := []
    rets := [none, none]
    runs := [.started 0, .started 2]
    reconPC := .idle
    pendingRecon := 0
    nextId := 4 }

/-- C3 counterexample: there is no re-check of the state after the lock is
acquired.  In the reachable state `c3Mid` the state cell reads `Connected`
while caller A has already passed its (single, lock-free) check; A's
locked section then executes — a `Step` out of a `Connected` state — and
mutates `host`/`port`/`broker` and returns a `nil` error instead of the
"already connected" error a re-check would have produced. -/
theorem c3_no_recheck_counterexample :
    Reach c3Mid ∧ GetState c3Mid.conn = .Connected ∧
    Step c3Mid c3Bad ∧
    c3Bad.conn.host = "h2" ∧ GetState c3Bad.conn = .Connected ∧
    c3Bad.rets = c3Mid.rets ++ [none] := by
  have h1 : Step initSys c3s1 :=
    Step.connectFast initSys "h2" "p2" 1 (by decide)
  have h2 : Step c3s1 c3s2 :=
    Step.connectFast c3s1 "h1" "p1" 1 (by decide)
  have h3 : Step c3s2 c3Mid :=
    Step.connectCommit c3s2 1 "h1" "p1" 1 (by decide)
  have h4 : Step c3Mid c3Bad :=
    Step.connectCommit c3Mid 0 "h2" "p2" 1 (by decide)
  exact ⟨Relation.ReflTransGen.head h1 (Relation.ReflTransGen.head h2
      (Relation.ReflTransGen.head h3 Relation.ReflTransGen.refl)),
    by decide, h4, by decide, by decide, by decide⟩

/-- A call `Connect("h","p",1)` passes its fast check. -/
def c1s1 : Sys := { initSys with pending := [("h", "p", 1)] }

/-- The locked section commits: `Connected`, broker `0`/pool `1` live, the
run-loop goroutine for broker `0` spawned. -/
def c1s2 : Sys :=
  { conn := { state := .Connected, host := "h", port := "p", poolCap := 1,
              broker := some 0, pool := some 1, lastError := none,
              reconnecting := false }
    pending := []
    rets := [none]
    runs := [.started 0]
    reconPC := .idle
    pendingRecon := 0
    nextId := 2 }

/-- Broker 0's `Start()` returns a transport error. -/
def c1s3 : Sys := { c1s2 with runs := [.returned 0 (.fail "io")] }

/-- Run-loop section 1: still the active broker, so it records `lastError`
and launches `go c.handleReconnection()`. -/
def c1s4 : Sys :=
  { c1s3 with
    conn := { c1s2.conn with
      lastError := some "broker stopped unexpectedly: io" }
    runs := [.sec1done 0]
    pendingRecon := 1 }

/-- Run-loop section 2: still active, so state goes `Disconnected`. -/
def c1s5 : Sys :=
  { c1s4 with
    conn := { c1s4.conn with state := .Disconnected }
    runs := [.exited] }

/-- The reconnection trigger wins its compare-and-swap. -/
def c1s6 : Sys :=
  { c1s5 with
    conn := { c1s5.conn with reconnecting := true }
    reconPC := .entered
    pendingRecon := 0 }

/-- Reconnection entry block: state `Reconnecting`. -/
def c1s7 : Sys :=
  { c1s6 with
    conn := { c1s6.conn with state := .Reconnecting }
    reconPC := .loopTop 0 }

/-- The loop starts its first backoff sleep (the lock is free). -/
def c1s8 : Sys := { c1s7 with reconPC := .slept 0 }

/-- A fresh `Connect("h","p",1)` passes its fast check (the state cell
reads `Reconnecting`, not `Connected`). -/
def c1s9 : Sys := { c1s8 with pending := [("h", "p", 1)] }

/-- That `Connect` commits while the loop sleeps: broker `2`/pool `3`
installed, state `Connected`, `reconnecting` reset to `false`. -/
def c1s10 : Sys :=
  { conn := { state := .Connected, host := "h", port := "p", poolCap := 1,
              broker := some 2, pool := some 3, lastError := none,
              reconnecting := false }
    pending := []
    rets := [none, none]
    runs := [.exited, .started 2]
    reconPC := .slept 0
    pendingRecon := 0
    nextId := 4 }

/-- The reconnection loop wakes and runs its teardown critical section,
clearing the broker and pool it believes are stale — the state cell still
reads `Connected`. -/
def c1Bad : Sys :=
  { c1s10 with
    conn := { c1s10.conn with broker := none, pool := none }
    reconPC := .tornDown 0 }

/-- C1 counterexample: a reachable state in which the state cell reads
`Connected` while the broker handle is `nil`.  Schedule: a `Connect`
succeeds; its run-loop exits with an error and triggers the reconnection
loop; while the loop is in its first backoff sleep a second `Connect`
completes (resetting the `reconnecting` flag and reaching `Connected`);
the loop then wakes and its teardown section clears the broker without
touching the state. -/
theorem c1_connected_nil_broker_reachable :
    Reach c1Bad ∧ GetState c1Bad.conn = .Connected ∧
    c1Bad.conn.broker = none := by
  have h1 : Step initSys c1s1 :=
    Step.connectFast initSys "h" "p" 1 (by decide)
  have h2 : Step c1s1 c1s2 :=
    Step.connectCommit c1s1 0 "h" "p" 1 (by decide)
  have h3 : Step c1s2 c1s3 :=
    Step.runReturn c1s2 0 0 (.fail "io") (by decide)
  have h4 : Step c1s3 c1s4 :=
    Step.runSec1 c1s3 0 0 (.fail "io") (by decide)
  have h5 : Step c1s4 c1s5 :=
    Step.runSec2 c1s4 0 0 (by decide)
  have h6 : Step c1s5 c1s6 :=
    Step.reconTrigger c1s5 (by decide)
  have h7 : Step c1s6 c1s7 :=
    Step.reconEntry c1s6 (by decide)
  have h8 : Step c1s7 c1s8 :=
    Step.reconLoopSleep c1s7 0 (by decide) (by decide)
  have h9 : Step c1s8 c1s9 :=
    Step.connectFast c1s8 "h" "p" 1 (by decide)
  have h10 : Step c1s9 c1s10 :=
    Step.connectCommit c1s9 0 "h" "p" 1 (by decide)
  have h11 : Step c1s10 c1Bad :=
    Step.reconTearStep c1s10 0 (by decide)
  refine ⟨?_, by decide, by decide⟩
  exact Relation.ReflTransGen.head h1 (Relation.ReflTransGen.head h2
    (Relation.ReflTransGen.head h3 (Relation.ReflTransGen.head h4
    (Relation.ReflTransGen.head h5 (Relation.ReflTransGen.head h6
    (Relation.ReflTransGen.head h7 (Relation.ReflTransGen.head h8
    (Relation.ReflTransGen.head h9 (Relation.ReflTransGen.head h10
    (Relation.ReflTransGen.head h11 Relation.ReflTransGen.refl))))))))))
